import Mathlib

/-!
Verification of the meowfacts ingestion-and-export pipeline.

The development is a shallow embedding of two Python modules:

* `src/models/custom_file.py` — the ingestion component: `get_timestamp`,
  `fetch_meowfacts`, `write_output_file`, `main`, and the module-level
  configuration constants.
* `src/models/custom_file_2_building_table.py` — the export component:
  `build_table` built on `pandas.DataFrame` and `DataFrame.to_csv`.

External effects are passed explicitly: the HTTP response a request would
observe, the wall clock read by `datetime.utcnow()`, and the stream of
values produced by `uuid.uuid4()` are parameters of the embedded
functions; exceptions are `Except` values.
-/

/-- Parsed JSON values, as produced by Python's `json.loads` and
`requests.Response.json`.  Numbers are modelled as integers (every number
the pipeline manipulates is an integer; floats are outside the modelled
domain).  Objects are association lists in key-insertion order, mirroring
Python dicts, so no duplicate keys occur in values built by `json.loads`. -/
inductive JSON where
  | null : JSON
  | bool : Bool → JSON
  | num : Int → JSON
  | str : String → JSON
  | arr : List JSON → JSON
  | obj : List (String × JSON) → JSON

/-- Escaping used by Python `repr` on the characters that matter here:
backslash, the quote character, and the common control characters. -/
def pyReprEscape (c : Char) : String :=
  if c = '\\' then "\\\\"
  else if c = '\'' then "\\'"
  else if c = '\n' then "\\n"
  else if c = '\r' then "\\r"
  else if c = '\t' then "\\t"
  else String.singleton c

mutual
/-- Python `repr` on parsed JSON values (strings single-quoted, `None`,
`True`, `False`, lists in brackets, dicts in braces).  Models the common
case of CPython's string repr: single quotes with backslash escapes. -/
def pyRepr : JSON → String
  | .null => "None"
  | .bool b => if b then "True" else "False"
  | .num n => toString n
  | .str s => "'" ++ String.join (s.data.map pyReprEscape) ++ "'"
  | .arr xs => "[" ++ pyReprSeq xs ++ "]"
  | .obj kvs => "\x7b" ++ pyReprFields kvs ++ "\x7d"

/-- Comma-separated reprs of the elements of a Python list. -/
def pyReprSeq : List JSON → String
  | [] => ""
  | [x] => pyRepr x
  | x :: xs => pyRepr x ++ ", " ++ pyReprSeq xs

/-- Comma-separated `key: value` reprs of the items of a Python dict. -/
def pyReprFields : List (String × JSON) → String
  | [] => ""
  | [(k, v)] => pyRepr (.str k) ++ ": " ++ pyRepr v
  | (k, v) :: kvs => pyRepr (.str k) ++ ": " ++ pyRepr v ++ ", " ++ pyReprFields kvs
end

/-- Python `str()` on parsed JSON values: a string is returned unchanged,
anything else falls back to `repr` (CPython: `str(None) = "None"`,
`str(True) = "True"`, `str(5) = "5"`, containers use their repr).  This is
the coercion applied by `str(fact)` in `fetch_meowfacts`. -/
def pyStr : JSON → String
  | .str s => s
  | j => pyRepr j

/-- A naive `datetime` as returned by `datetime.utcnow()`: broken-down UTC
time with microseconds and no timezone attached.  The `datetime`
constructor guarantees `1 ≤ year ≤ 9999`, `1 ≤ month ≤ 12`, `1 ≤ day ≤ 31`,
`hour ≤ 23`, `minute ≤ 59`, `second ≤ 59`, `microsecond ≤ 999999`
(see `ValidDT` below); the formatting functions are exact on that range. -/
structure PyDateTime where
  year : Nat
  month : Nat
  day : Nat
  hour : Nat
  minute : Nat
  second : Nat
  microsecond : Nat

/-- The invariant ranges `datetime` enforces on its fields; every value
`datetime.utcnow()` can return satisfies them. -/
def ValidDT (dt : PyDateTime) : Prop :=
  1 ≤ dt.year ∧ dt.year ≤ 9999 ∧ 1 ≤ dt.month ∧ dt.month ≤ 12 ∧
  1 ≤ dt.day ∧ dt.day ≤ 31 ∧ dt.hour ≤ 23 ∧ dt.minute ≤ 59 ∧
  dt.second ≤ 59 ∧ dt.microsecond ≤ 999999

instance (dt : PyDateTime) : Decidable (ValidDT dt) := by
  unfold ValidDT; infer_instance

/-- Two-digit zero-padded decimal rendering (`%02d`), exact for inputs
below 100 — the range of every field it is applied to. -/
def pad2 (x : Nat) : String :=
  String.mk [Nat.digitChar (x / 10 % 10), Nat.digitChar (x % 10)]

/-- Four-digit zero-padded decimal rendering (`%04d`), exact for inputs
below 10000 — the range of `datetime.year`. -/
def pad4 (x : Nat) : String :=
  String.mk [Nat.digitChar (x / 1000 % 10), Nat.digitChar (x / 100 % 10),
             Nat.digitChar (x / 10 % 10), Nat.digitChar (x % 10)]

/-- Six-digit zero-padded decimal rendering (`%06d`), exact for inputs
below 1000000 — the range of `datetime.microsecond`. -/
def pad6 (x : Nat) : String :=
  String.mk [Nat.digitChar (x / 100000 % 10), Nat.digitChar (x / 10000 % 10),
             Nat.digitChar (x / 1000 % 10), Nat.digitChar (x / 100 % 10),
             Nat.digitChar (x / 10 % 10), Nat.digitChar (x % 10)]

/-- CPython `datetime.isoformat()` for a naive datetime:
`YYYY-MM-DDTHH:MM:SS`, with `.ffffff` appended exactly when the
microsecond field is nonzero. -/
def isoformat (dt : PyDateTime) : String :=
  pad4 dt.year ++ "-" ++ pad2 dt.month ++ "-" ++ pad2 dt.day ++ "T" ++
  pad2 dt.hour ++ ":" ++ pad2 dt.minute ++ ":" ++ pad2 dt.second ++
  (if dt.microsecond = 0 then "" else "." ++ pad6 dt.microsecond)

/-- Source `get_timestamp` (custom_file.py:41): current processing
timestamp, `datetime.utcnow().isoformat() + "Z"`.  The clock reading is
the explicit argument. -/
def get_timestamp (dt : PyDateTime) : String :=
  isoformat dt ++ "Z"

/-- Decimal digit test on characters. -/
def isDigitCh (c : Char) : Bool := decide ('0' ≤ c) && decide (c ≤ '9')

/-- Checker for an ISO-8601 UTC instant with a trailing `Z` zone
indicator: `YYYY-MM-DDTHH:MM:SSZ` or `YYYY-MM-DDTHH:MM:SS.ffffffZ`,
written independently of the producer, from the grammar. -/
def isISO8601Z (s : String) : Bool :=
  match s.data with
  | [y1, y2, y3, y4, a1, m1, m2, a2, d1, d2, t1, h1, h2, b1, n1, n2, b2, s1, s2, z1] =>
      isDigitCh y1 && isDigitCh y2 && isDigitCh y3 && isDigitCh y4 &&
      isDigitCh m1 && isDigitCh m2 && isDigitCh d1 && isDigitCh d2 &&
      isDigitCh h1 && isDigitCh h2 && isDigitCh n1 && isDigitCh n2 &&
      isDigitCh s1 && isDigitCh s2 &&
      (a1 == '-') && (a2 == '-') && (t1 == 'T') && (b1 == ':') && (b2 == ':') && (z1 == 'Z')
  | [y1, y2, y3, y4, a1, m1, m2, a2, d1, d2, t1, h1, h2, b1, n1, n2, b2, s1, s2, p1,
     f1, f2, f3, f4, f5, f6, z1] =>
      isDigitCh y1 && isDigitCh y2 && isDigitCh y3 && isDigitCh y4 &&
      isDigitCh m1 && isDigitCh m2 && isDigitCh d1 && isDigitCh d2 &&
      isDigitCh h1 && isDigitCh h2 && isDigitCh n1 && isDigitCh n2 &&
      isDigitCh s1 && isDigitCh s2 &&
      isDigitCh f1 && isDigitCh f2 && isDigitCh f3 && isDigitCh f4 &&
      isDigitCh f5 && isDigitCh f6 &&
      (a1 == '-') && (a2 == '-') && (t1 == 'T') && (b1 == ':') && (b2 == ':') &&
      (p1 == '.') && (z1 == 'Z')
  | _ => false

/-- Configuration constant from custom_file.py:29. -/
def API_URL : String := "https://meowfacts.herokuapp.com/"

/-- Configuration constant from custom_file.py:30 (seconds). -/
def API_TIMEOUT : Nat := 30

/-- Configuration constant from custom_file.py:31. -/
def DEFAULT_FACT_COUNT : Int := 200

/-- Configuration constant from custom_file.py:32. -/
def OUTPUT_FILE : String := "requested_dataset.json"

/-- Configuration constant from custom_file.py:35. -/
def SUPPORTED_LANGUAGES : List String :=
  ["eng", "ces", "ger", "ben", "esp", "rus", "por",
   "fil", "ukr", "urd", "ita", "zho", "kor"]

/-- One normalized fact record, as built by `fetch_meowfacts`. -/
structure Record where
  event_id : String
  processing_timestamp : String
  language : String
  fact : String
  deriving DecidableEq

/-- The distinguishable exceptions `fetch_meowfacts` can raise.
`validationError` and `malformedResponse` are both Python `ValueError`s
distinguished by raise site and message; `timeout`, `connectionFailure`
and `upstreamError` are `requests` exceptions; `attributeError` is the
uncaught `AttributeError` raised by `data.get` when the parsed body is
not a dict. -/
inductive FetchError where
  | validationError (msg : String)
  | timeout
  | connectionFailure
  | upstreamError (status : Nat)
  | malformedResponse (msg : String)
  | attributeError
  deriving DecidableEq

/-- What the single HTTP GET of one `fetch_meowfacts` call observes:
timing out, failing to connect, or a response with a status code and a
body.  `body = none` means the body is not valid JSON, so
`response.json()` raises `JSONDecodeError`. -/
inductive HttpOutcome where
  | timeout
  | connectionError
  | response (status : Nat) (body : Option JSON)

/-- Result of one `fetch_meowfacts` call: the returned records or the
exception raised, together with whether the HTTP request was issued. -/
structure FetchResult where
  result : Except FetchError (List Record)
  requestIssued : Bool

/-- The record-building comprehension of `fetch_meowfacts`
(custom_file.py:77): one `Record` per fact, drawing the next fresh
`uuid.uuid4()` value per iteration (`fresh i` is the i-th draw), the
shared timestamp `ts`, the requested language, and the fact coerced with
`str`. -/
def buildRecords (lang : String) (ts : String) (fresh : Nat → String) :
    Nat → List JSON → List Record
  | _, [] => []
  | i, fact :: rest =>
      { event_id := fresh i, processing_timestamp := ts,
        language := lang, fact := pyStr fact } :: buildRecords lang ts fresh (i + 1) rest

/-- Source `fetch_meowfacts` (custom_file.py:46): validate `lang` and
`count`, issue the GET (its observed outcome is `net`), raise for a
non-2xx status, parse the body, read `data.get("data", [])`, replace a
non-list value by `[]`, and normalize.  `now` is the value
`datetime.utcnow()` reads inside `get_timestamp`; `fresh` is the
`uuid.uuid4()` stream of this call. -/
def fetch_meowfacts (lang : String) (count : Int) (net : HttpOutcome)
    (now : PyDateTime) (fresh : Nat → String) : FetchResult :=
  if lang = "" then
    ⟨.error (.validationError ("Invalid language code: " ++ lang)), false⟩
  else if count ≤ 0 ∨ 1000 < count then
    ⟨.error (.validationError ("Count must be between 1 and 1000, got: " ++ toString count)),
     false⟩
  else
    match net with
    | .timeout => ⟨.error .timeout, true⟩
    | .connectionError => ⟨.error .connectionFailure, true⟩
    | .response status body =>
        if 400 ≤ status then ⟨.error (.upstreamError status), true⟩
        else
          match body with
          | none =>
              ⟨.error (.malformedResponse
                 ("Invalid API response format for language '" ++ lang ++ "'")), true⟩
          | some (.obj kvs) =>
              let factsField := (kvs.lookup "data").getD (.arr [])
              let facts := match factsField with
                | .arr l => l
                | _ => []
              ⟨.ok (buildRecords lang (get_timestamp now) fresh 0 facts), true⟩
          | some _ => ⟨.error .attributeError, true⟩

/-- Indentation prefix used by `json.dump(..., indent=2)` at nesting
depth `level`. -/
def jsonIndent (level : Nat) : String := String.mk (List.replicate (2 * level) ' ')

/-- Character escaping of Python's `json` serializer with
`ensure_ascii=False`: quote, backslash and control characters are
escaped, every other character (non-ASCII included) is kept literally. -/
def jsonEscapeChar (c : Char) : String :=
  if c = '"' then "\\\""
  else if c = '\\' then "\\\\"
  else if c = '\n' then "\\n"
  else if c = '\r' then "\\r"
  else if c = '\t' then "\\t"
  else if c.toNat = 8 then "\\b"
  else if c.toNat = 12 then "\\f"
  else if c.toNat < 32 then
    "\\u00" ++ String.mk [Nat.digitChar (c.toNat / 16), Nat.digitChar (c.toNat % 16)]
  else String.singleton c

/-- JSON string literal as written by `json.dump` with
`ensure_ascii=False`. -/
def jsonDumpString (s : String) : String :=
  "\"" ++ String.join (s.data.map jsonEscapeChar) ++ "\""

mutual
/-- Python `json.dump(obj, f, indent=2, ensure_ascii=False)` at nesting
depth `level`: pretty-printed with two-space indentation, `", "`-free
item separators (a comma, then a newline and the next indent), `": "`
key separators, and empty containers rendered inline. -/
def json_dump_at : Nat → JSON → String
  | _, .null => "null"
  | _, .bool b => if b then "true" else "false"
  | _, .num n => toString n
  | _, .str s => jsonDumpString s
  | _, .arr [] => "[]"
  | level, .arr (x :: xs) =>
      "[\n" ++ jsonIndent (level + 1) ++ json_dump_at (level + 1) x ++
      json_dump_items (level + 1) xs ++ "\n" ++ jsonIndent level ++ "]"
  | _, .obj [] => "\x7b\x7d"
  | level, .obj ((k, v) :: kvs) =>
      "\x7b\n" ++ jsonIndent (level + 1) ++ jsonDumpString k ++ ": " ++
      json_dump_at (level + 1) v ++
      json_dump_fields (level + 1) kvs ++ "\n" ++ jsonIndent level ++ "\x7d"

/-- Remaining array items, each preceded by a comma, a newline and the
current indent. -/
def json_dump_items : Nat → List JSON → String
  | _, [] => ""
  | level, x :: xs =>
      ",\n" ++ jsonIndent level ++ json_dump_at level x ++ json_dump_items level xs

/-- Remaining object fields, each preceded by a comma, a newline and the
current indent. -/
def json_dump_fields : Nat → List (String × JSON) → String
  | _, [] => ""
  | level, (k, v) :: kvs =>
      ",\n" ++ jsonIndent level ++ jsonDumpString k ++ ": " ++ json_dump_at level v ++
      json_dump_fields level kvs
end

/-- Top-level `json.dump(data, f, indent=2, ensure_ascii=False)` as called
by `write_output_file` (custom_file.py:123). -/
def json_dump (j : JSON) : String := json_dump_at 0 j

/-- The JSON object a `Record` dict serializes to: the four fields in
insertion order, all string-valued. -/
def recordToJson (r : Record) : JSON :=
  .obj [("event_id", .str r.event_id),
        ("processing_timestamp", .str r.processing_timestamp),
        ("language", .str r.language),
        ("fact", .str r.fact)]

/-- What one successful `write_output_file` call does: whether the
empty-data warning was logged, the path written, and the exact text
written to it. -/
structure WriteEvent where
  warned : Bool
  path : String
  text : String
  deriving DecidableEq

/-- Source `write_output_file` (custom_file.py:107): warn when `data` is
empty, create parent directories, and dump `data` as indented JSON.
Filesystem failures (`IOError`/`OSError`) are logged and re-raised
unchanged by the source; the embedding models the successful-filesystem
run, which is the domain of every claim about the writer.  Note the
function performs no emptiness check beyond the warning: an empty list is
serialized and written like any other. -/
def write_output_file (data : List Record) (output_path : String) : WriteEvent :=
  { warned := data.isEmpty,
    path := output_path,
    text := json_dump (.arr (data.map recordToJson)) }

/-- The exception `main` itself raises when the aggregated dataset is
empty (custom_file.py:160): a Python `ValueError` carrying this
message — the spec's `NoDataError`. -/
inductive MainError where
  | noDataError (msg : String)
  deriving DecidableEq

/-- The external world one ingestion run interacts with: per-language
HTTP outcomes, the `datetime.utcnow()` reading taken during each
language's fetch, and the `uuid.uuid4()` stream drawn during each
language's fetch. -/
structure IngestEnv where
  net : String → HttpOutcome
  clock : String → PyDateTime
  fresh : String → Nat → String

/-- The `fetch_meowfacts(lang)` call `main` makes for one language, with
the default count. -/
def fetchFor (env : IngestEnv) (lang : String) : FetchResult :=
  fetch_meowfacts lang DEFAULT_FACT_COUNT (env.net lang) (env.clock lang) (env.fresh lang)

/-- Whether an `Except` value is an exception. -/
def isErr : Except ε α → Bool
  | .error _ => true
  | .ok _ => false

/-- The records one language contributes to the run: the fetch result on
success, nothing on failure. -/
def langRecords (env : IngestEnv) (lang : String) : List Record :=
  match (fetchFor env lang).result with
  | .ok facts => facts
  | .error _ => []

/-- One iteration of `main`'s per-language loop (custom_file.py:146): on
success extend `all_facts`, on ANY exception — the
`(RequestException, ValueError)` handler and the `except Exception`
catch-all together cover every exception `fetch_meowfacts` raises —
append the language to `failed_languages` and continue. -/
def mainStep (env : IngestEnv) (acc : List Record × List String) (lang : String) :
    List Record × List String :=
  match (fetchFor env lang).result with
  | .ok facts => (acc.1 ++ facts, acc.2)
  | .error _ => (acc.1, acc.2 ++ [lang])

/-- Result of one `main` run: the accumulated dataset, the failed
languages, and either the `NoDataError` raised or the write performed. -/
structure MainOutcome where
  dataset : List Record
  failed : List String
  outcome : Except MainError WriteEvent

/-- Source `main` (custom_file.py:135; Lean reserves the name `main`, hence `main_run`): loop over `SUPPORTED_LANGUAGES`
accumulating records and failed languages, raise `ValueError` when no
facts were fetched at all, otherwise write the dataset to
`OUTPUT_FILE`. -/
def main_run (env : IngestEnv) : MainOutcome :=
  let acc := SUPPORTED_LANGUAGES.foldl (mainStep env) ([], [])
  if acc.1.isEmpty then
    ⟨acc.1, acc.2, .error (.noDataError "No facts were successfully fetched from any language")⟩
  else
    ⟨acc.1, acc.2, .ok (write_output_file acc.1 OUTPUT_FILE)⟩

/-- Configuration constant from custom_file_2_building_table.py:4. -/
def INPUT_FILE : String := "requested_dataset.json"

/-- Configuration constant from custom_file_2_building_table.py:5. -/
def CSV_FILE : String := "table_dataset.csv"

/-- Configuration constant from custom_file_2_building_table.py:6. -/
def EXCEL_FILE : String := "table_dataset.xlsx"

/-- A parsed JSON record object, i.e. one Python dict of the loaded
array. -/
abbrev PyDict := List (String × JSON)

/-- Key accumulation of `pandas.DataFrame` over a list of dicts: append
each key not yet seen, preserving first-appearance order. -/
def addKeys (acc : List String) (ks : List String) : List String :=
  ks.foldl (fun a k => if k ∈ a then a else a ++ [k]) acc

/-- Column set of `pandas.DataFrame(list_of_dicts)`: the union of the
dicts' keys in order of first appearance. -/
def unionKeys (rows : List PyDict) : List String :=
  rows.foldl (fun a r => addKeys a (r.map Prod.fst)) []

/-- The cell `DataFrame`/`to_csv` produce for dict `r` in column `k`: a
missing key and a `None` value both become NaN, which `to_csv` renders as
the empty field (default `na_rep`); any other value is rendered with
`str`. -/
def cellOf (r : PyDict) (k : String) : String :=
  match r.lookup k with
  | some .null => ""
  | some v => pyStr v
  | none => ""

/-- The rectangular table a `DataFrame` of record dicts holds: the header
and one row of rendered cells per record. -/
structure Table where
  header : List String
  rows : List (List String)
  deriving DecidableEq

/-- `pandas.DataFrame(records)` for a list of record dicts
(custom_file_2_building_table.py:15): columns are the key union in
first-appearance order, rows follow the input order, each row has one
cell per column. -/
def pdDataFrame (records : List PyDict) : Table :=
  let cols := unionKeys records
  ⟨cols, records.map (fun r => cols.map (cellOf r))⟩

/-- First index of a column name in a header. -/
def idxOf : List String → String → Option Nat
  | [], _ => none
  | c :: cs, k => if c = k then some 0 else (idxOf cs k).map (· + 1)

/-- The cells of one named column of a table, top to bottom. -/
def tableColumn (t : Table) (c : String) : List String :=
  match idxOf t.header c with
  | some i => t.rows.map (fun row => row.getD i "")
  | none => []

/-- One escaped character inside a quoted CSV field: the quote character
is doubled, everything else kept. -/
def csvEscapeQuote (c : Char) : List Char :=
  if c = '"' then ['"', '"'] else [c]

/-- Whether `to_csv`'s minimal quoting (csv.QUOTE_MINIMAL) must quote a
field: it contains the separator, the quote character, or a line
break. -/
def csvNeedsQuote (s : String) : Bool :=
  s.data.any (fun c => c == ',' || c == '"' || c == '\n' || c == '\r')

/-- One CSV field under minimal quoting. -/
def csvField (s : String) : List Char :=
  if csvNeedsQuote s then '"' :: (s.data.map csvEscapeQuote).flatten ++ ['"'] else s.data

/-- One CSV line: the fields separated by commas. -/
def csvLineChars : List String → List Char
  | [] => []
  | [s] => csvField s
  | s :: rest => csvField s ++ ',' :: csvLineChars rest

/-- `DataFrame.to_csv(path, index=False)`: the header line followed by
one line per row, no index column, each line terminated by a newline. -/
def to_csv (t : Table) : String :=
  String.mk (((t.header :: t.rows).map (fun cells => csvLineChars cells ++ ['\n'])).flatten)

/-- The ambient effects available to a `build_table` run: the process
clock and entropy stream.  The source never reads either — `build_table`
calls no clock, random or uuid function — which is what makes its output
a function of the input file alone. -/
structure RunEnv where
  utcnow : PyDateTime
  uuidStream : Nat → String

/-- Observable output of one `build_table` run on the successfully parsed
JSON input: the DataFrame built, the exact CSV text written to
`CSV_FILE`, and the row count printed.  The spreadsheet written to
`EXCEL_FILE` mirrors the same table; its binary container format is not
modelled. -/
structure BuildOutput where
  df : Table
  csv_text : String
  row_count : Nat
  deriving DecidableEq

/-- Source `build_table` (custom_file_2_building_table.py:9) on a parsed
input array of record dicts: build the DataFrame and render it to CSV.
The source performs no shape validation of its own — `json.load` and
`pd.DataFrame` are called directly on the file contents — so the
function is total on arrays of record objects. -/
def build_table (env : RunEnv) (data : List PyDict) : BuildOutput :=
  let df := pdDataFrame data
  { df := df, csv_text := to_csv df, row_count := df.rows.length }

theorem isDigitCh_digitChar_mod (x : Nat) : isDigitCh (Nat.digitChar (x % 10)) = true := by
  have h : x % 10 < 10 := Nat.mod_lt _ (by decide)
  exact (by decide : ∀ d < 10, isDigitCh (Nat.digitChar d) = true) _ h

theorem get_timestamp_isISO8601Z (dt : PyDateTime) :
    isISO8601Z (get_timestamp dt) = true := by
  unfold get_timestamp isoformat pad4 pad2 pad6
  by_cases h : dt.microsecond = 0 <;>
    simp [h, isISO8601Z, String.data_append, isDigitCh_digitChar_mod]

theorem buildRecords_length (lang ts : String) (fresh : Nat → String) (i : Nat)
    (facts : List JSON) : (buildRecords lang ts fresh i facts).length = facts.length := by
  induction facts generalizing i with
  | nil => rfl
  | cons f rest ih => simp [buildRecords, ih]

theorem mem_buildRecords (lang ts : String) (fresh : Nat → String) (i : Nat)
    (facts : List JSON) (r : Record) (hr : r ∈ buildRecords lang ts fresh i facts) :
    r.language = lang ∧ r.processing_timestamp = ts := by
  induction facts generalizing i with
  | nil => simp [buildRecords] at hr
  | cons f rest ih =>
      simp only [buildRecords, List.mem_cons] at hr
      rcases hr with h | h
      · subst h; exact ⟨rfl, rfl⟩
      · exact ih _ h

theorem buildRecords_map_fact (lang ts : String) (fresh : Nat → String) (i : Nat)
    (facts : List JSON) :
    (buildRecords lang ts fresh i facts).map Record.fact = facts.map pyStr := by
  induction facts generalizing i with
  | nil => rfl
  | cons f rest ih => simp [buildRecords, ih]

theorem buildRecords_map_event_id (lang ts : String) (fresh : Nat → String) (i : Nat)
    (facts : List JSON) :
    (buildRecords lang ts fresh i facts).map Record.event_id =
      (List.range' i facts.length).map fresh := by
  induction facts generalizing i with
  | nil => rfl
  | cons f rest ih => simp [buildRecords, List.range'_succ, ih]

theorem fetch_ok_inv (lang : String) (count : Int) (net : HttpOutcome)
    (now : PyDateTime) (fresh : Nat → String) (recs : List Record)
    (h : (fetch_meowfacts lang count net now fresh).result = .ok recs) :
    ∀ r ∈ recs, r.language = lang ∧ r.processing_timestamp = get_timestamp now := by
  unfold fetch_meowfacts at h
  split at h
  · simp at h
  · split at h
    · simp at h
    · match net, h with
      | .response status body, h =>
          simp only at h
          split at h
          · simp at h
          · match body, h with
            | some (.obj kvs), h =>
                simp only [Except.ok.injEq] at h
                intro r hr
                rw [← h] at hr
                exact mem_buildRecords _ _ _ _ _ _ hr

theorem mainLoop_spec (env : IngestEnv) (langs : List String)
    (acc : List Record) (fl : List String) :
    langs.foldl (mainStep env) (acc, fl) =
      (acc ++ (langs.map (langRecords env)).flatten,
       fl ++ langs.filter (fun l => isErr (fetchFor env l).result)) := by
  induction langs generalizing acc fl with
  | nil => simp
  | cons lang rest ih =>
      simp only [List.foldl_cons, List.map_cons, List.flatten_cons, List.filter_cons]
      cases hres : (fetchFor env lang).result with
      | ok facts =>
          rw [show mainStep env (acc, fl) lang = (acc ++ facts, fl) from by
                simp [mainStep, hres],
              ih]
          simp [langRecords, hres, isErr, List.append_assoc]
      | error e =>
          rw [show mainStep env (acc, fl) lang = (acc, fl ++ [lang]) from by
                simp [mainStep, hres],
              ih]
          simp [langRecords, hres, isErr, List.append_assoc]

theorem main_run_dataset (env : IngestEnv) :
    (main_run env).dataset = (SUPPORTED_LANGUAGES.map (langRecords env)).flatten := by
  unfold main_run
  rw [mainLoop_spec]
  by_cases h : ((SUPPORTED_LANGUAGES.map (langRecords env)).flatten).isEmpty <;> simp [h]

theorem main_run_failed (env : IngestEnv) :
    (main_run env).failed =
      SUPPORTED_LANGUAGES.filter (fun l => isErr (fetchFor env l).result) := by
  unfold main_run
  rw [mainLoop_spec]
  by_cases h : ((SUPPORTED_LANGUAGES.map (langRecords env)).flatten).isEmpty <;> simp [h]

theorem main_run_outcome (env : IngestEnv) :
    (main_run env).outcome =
      if ((SUPPORTED_LANGUAGES.map (langRecords env)).flatten).isEmpty then
        .error (.noDataError "No facts were successfully fetched from any language")
      else
        .ok (write_output_file ((SUPPORTED_LANGUAGES.map (langRecords env)).flatten)
               OUTPUT_FILE) := by
  unfold main_run
  rw [mainLoop_spec]
  by_cases h : ((SUPPORTED_LANGUAGES.map (langRecords env)).flatten).isEmpty <;> simp [h]

theorem mem_addKeys (acc ks : List String) (k : String) :
    k ∈ addKeys acc ks ↔ k ∈ acc ∨ k ∈ ks := by
  induction ks generalizing acc with
  | nil => simp [addKeys]
  | cons a ks ih =>
      simp only [addKeys, List.foldl_cons] at *
      by_cases ha : a ∈ acc
      · rw [if_pos ha, ih]
        simp only [List.mem_cons]
        constructor
        · rintro (h | h)
          · exact Or.inl h
          · exact Or.inr (Or.inr h)
        · rintro (h | h | h)
          · exact Or.inl h
          · exact Or.inl (h ▸ ha)
          · exact Or.inr h
      · rw [if_neg ha, ih]
        simp only [List.mem_append, List.mem_singleton, List.mem_cons]
        tauto

theorem mem_unionKeys_aux (rows : List PyDict) (acc : List String) (k : String) :
    k ∈ rows.foldl (fun a r => addKeys a (r.map Prod.fst)) acc ↔
      k ∈ acc ∨ ∃ r ∈ rows, k ∈ r.map Prod.fst := by
  induction rows generalizing acc with
  | nil => simp
  | cons r rows ih =>
      simp only [List.foldl_cons, ih, mem_addKeys, List.mem_cons]
      constructor
      · rintro ((h | h) | ⟨r2, h2, h3⟩)
        · exact Or.inl h
        · exact Or.inr ⟨r, Or.inl rfl, h⟩
        · exact Or.inr ⟨r2, Or.inr h2, h3⟩
      · rintro (h | ⟨r2, (h2 | h2), h3⟩)
        · exact Or.inl (Or.inl h)
        · exact Or.inl (Or.inr (h2 ▸ h3))
        · exact Or.inr ⟨r2, h2, h3⟩

theorem mem_unionKeys (rows : List PyDict) (k : String) :
    k ∈ unionKeys rows ↔ ∃ r ∈ rows, k ∈ r.map Prod.fst := by
  unfold unionKeys
  simp [mem_unionKeys_aux]

theorem idxOf_mem (cols : List String) (k : String) (h : k ∈ cols) :
    ∃ i, idxOf cols k = some i ∧
      ∀ (f : String → String) (d : String), (cols.map f).getD i d = f k := by
  induction cols with
  | nil => simp at h
  | cons c cs ih =>
      by_cases hc : c = k
      · exact ⟨0, by simp [idxOf, hc], fun f d => by simp [hc]⟩
      · have hk : k ∈ cs := by
          rcases List.mem_cons.mp h with h1 | h1
          · exact absurd h1.symm hc
          · exact h1
        obtain ⟨i, hi, hg⟩ := ih hk
        exact ⟨i + 1, by simp [idxOf, hc, hi], fun f d => by
          simpa [List.getD_cons_succ] using hg f d⟩

theorem lookup_some_mem_keys (r : PyDict) (k : String) (v : JSON)
    (h : r.lookup k = some v) : k ∈ r.map Prod.fst := by
  induction r with
  | nil => simp [List.lookup] at h
  | cons kv rest ih =>
      obtain ⟨k1, v1⟩ := kv
      by_cases hk : k = k1
      · simp [hk]
      · have hb : (k == k1) = false := beq_false_of_ne hk
        simp only [List.lookup, hb] at h
        exact List.mem_cons_of_mem _ (ih h)

theorem tableColumn_pdDataFrame (records : List PyDict) (k : String)
    (h : k ∈ unionKeys records) :
    tableColumn (pdDataFrame records) k = records.map (fun r => cellOf r k) := by
  obtain ⟨i, hi, hg⟩ := idxOf_mem (unionKeys records) k h
  unfold tableColumn pdDataFrame
  simp only [hi]
  rw [List.map_map]
  exact List.map_congr_left (fun r _ => hg (cellOf r) "")

theorem csvField_no_nl (s : String) (h : '\n' ∉ s.data) : '\n' ∉ csvField s := by
  unfold csvField
  split
  · intro hmem
    rcases List.mem_cons.mp hmem with h1 | h1
    · exact absurd h1 (by decide : ¬(('\n' : Char) = '"'))
    · rcases List.mem_append.mp h1 with h2 | h2
      · rcases List.mem_flatten.mp h2 with ⟨l, hl, hc⟩
        rcases List.mem_map.mp hl with ⟨c, hcs, rfl⟩
        unfold csvEscapeQuote at hc
        split at hc
        · rcases List.mem_cons.mp hc with h3 | h3
          · exact absurd h3 (by decide : ¬(('\n' : Char) = '"'))
          · exact absurd (List.mem_singleton.mp h3) (by decide : ¬(('\n' : Char) = '"'))
        · have h4 : ('\n' : Char) = c := List.mem_singleton.mp hc
          subst h4
          exact h hcs
      · exact absurd (List.mem_singleton.mp h2) (by decide : ¬(('\n' : Char) = '"'))
  · exact h

theorem csvLineChars_no_nl (cells : List String)
    (h : ∀ s ∈ cells, '\n' ∉ s.data) : '\n' ∉ csvLineChars cells := by
  induction cells with
  | nil => simp [csvLineChars]
  | cons s rest ih =>
      cases rest with
      | nil => exact csvField_no_nl s (h s (by simp))
      | cons t ts =>
          intro hmem
          rw [show csvLineChars (s :: t :: ts) = csvField s ++ ',' :: csvLineChars (t :: ts)
                from rfl] at hmem
          rcases List.mem_append.mp hmem with h1 | h1
          · exact csvField_no_nl s (h s (by simp)) h1
          · rcases List.mem_cons.mp h1 with h2 | h2
            · exact absurd h2 (by decide)
            · exact ih (fun c hc => h c (List.mem_cons_of_mem _ hc)) h2

theorem count_nl_lines (ls : List (List Char)) (h : ∀ l ∈ ls, '\n' ∉ l) :
    ((ls.map (fun l => l ++ ['\n'])).flatten).count '\n' = ls.length := by
  induction ls with
  | nil => simp
  | cons l rest ih =>
      simp only [List.map_cons, List.flatten_cons, List.count_append, List.length_cons]
      rw [ih (fun x hx => h x (List.mem_cons_of_mem _ hx))]
      have hl : l.count '\n' = 0 := List.count_eq_zero.mpr (h l (by simp))
      simp [hl, List.count_singleton, Nat.add_comm]

theorem to_csv_newline_count (t : Table)
    (hhead : ∀ s ∈ t.header, '\n' ∉ s.data)
    (hcells : ∀ row ∈ t.rows, ∀ s ∈ row, '\n' ∉ s.data) :
    (to_csv t).data.count '\n' = t.rows.length + 1 := by
  unfold to_csv
  show (((t.header :: t.rows).map (fun cells => csvLineChars cells ++ ['\n'])).flatten).count '\n'
      = t.rows.length + 1
  have hcomp : (t.header :: t.rows).map (fun cells => csvLineChars cells ++ ['\n']) =
      ((t.header :: t.rows).map csvLineChars).map (fun l => l ++ ['\n']) := by
    rw [List.map_map]
    rfl
  rw [hcomp, count_nl_lines]
  · simp [Nat.add_comm]
  · intro l hl
    rcases List.mem_map.mp hl with ⟨cells, hc, rfl⟩
    rcases List.mem_cons.mp hc with h1 | h1
    · exact csvLineChars_no_nl _ (h1 ▸ hhead)
    · exact csvLineChars_no_nl _ (hcells _ h1)

/-- Concrete clock reading used in witnesses and counterexamples. -/
def sampleDT : PyDateTime := ⟨2024, 3, 5, 10, 2, 59, 123456⟩

/-- Concrete injective uuid stream used in witnesses: the i-th draw is a
string of i marks. -/
def sampleFresh (n : Nat) : String := String.mk (List.replicate n 'x')

theorem sampleFresh_injective : Function.Injective sampleFresh := by
  intro a b hab
  have hlen := congrArg (fun s : String => s.data.length) hab
  simpa [sampleFresh] using hlen

/-- Claim C1: for every language code and every upstream response whose
data field holds N fact values, fetch-language returns a list of exactly
N records, every record carries the requested language, every record's
fact is the fact value coerced to text with Python `str`, all N records
share the one `processing_timestamp` taken for this call, and — under
the uuid-freshness assumption that the `uuid.uuid4()` stream is
injective — the N `event_id` values are pairwise distinct. -/
theorem fetch_normalization (lang : String) (count : Int) (status : Nat)
    (kvs : PyDict) (facts : List JSON) (now : PyDateTime) (fresh : Nat → String)
    (hlang : lang ≠ "") (hc1 : 0 < count) (hc2 : count ≤ 1000) (hstatus : status < 400)
    (hdata : kvs.lookup "data" = some (.arr facts)) :
    ∃ recs, (fetch_meowfacts lang count (.response status (some (.obj kvs))) now fresh).result
        = .ok recs
      ∧ recs.length = facts.length
      ∧ (∀ r ∈ recs, r.language = lang)
      ∧ (∀ r ∈ recs, r.processing_timestamp = get_timestamp now)
      ∧ recs.map Record.fact = facts.map pyStr
      ∧ (Function.Injective fresh → (recs.map Record.event_id).Nodup) := by
  have hcount : ¬(count ≤ 0 ∨ 1000 < count) := by omega
  have hst : ¬(400 ≤ status) := by omega
  refine ⟨buildRecords lang (get_timestamp now) fresh 0 facts, ?_, ?_, ?_, ?_, ?_, ?_⟩
  · simp [fetch_meowfacts, hlang, hcount, hst, hdata]
  · exact buildRecords_length lang _ fresh 0 facts
  · exact fun r hr => (mem_buildRecords lang _ fresh 0 facts r hr).1
  · exact fun r hr => (mem_buildRecords lang _ fresh 0 facts r hr).2
  · exact buildRecords_map_fact lang _ fresh 0 facts
  · intro hinj
    rw [buildRecords_map_event_id]
    exact List.Nodup.map hinj (List.nodup_range' _ _)

/-- Witness for C1: a response carrying two facts (one a string, one a
number) yields two records with distinct event ids. -/
theorem fetch_normalization_witness :
    (("eng" : String) ≠ "") ∧ ((0 : Int) < 200) ∧ ((200 : Int) ≤ 1000) ∧ ((200 : Nat) < 400) ∧
    (∃ recs, (fetch_meowfacts "eng" 200
        (.response 200 (some (.obj [("data", .arr [.str "cats purr", .num 7])])))
        sampleDT sampleFresh).result = .ok recs
      ∧ recs.length = ([JSON.str "cats purr", JSON.num 7] : List JSON).length
      ∧ (∀ r ∈ recs, r.language = "eng")
      ∧ (∀ r ∈ recs, r.processing_timestamp = get_timestamp sampleDT)
      ∧ recs.map Record.fact = ([JSON.str "cats purr", JSON.num 7] : List JSON).map pyStr
      ∧ (Function.Injective sampleFresh → (recs.map Record.event_id).Nodup)) := by
  refine ⟨by decide, by decide, by decide, by decide, ?_⟩
  exact fetch_normalization "eng" 200 200 [("data", .arr [.str "cats purr", .num 7])]
    [.str "cats purr", .num 7] sampleDT sampleFresh (by decide) (by decide) (by decide)
    (by decide) rfl

/-- Claim C3: a call with an empty language code or a count outside
1..1000 raises `ValidationError` with the request never issued; a call
with a non-empty language code and a count in 1..1000 never raises
`ValidationError`, whatever the network does. -/
theorem fetch_validation (lang : String) (count : Int) (net : HttpOutcome)
    (now : PyDateTime) (fresh : Nat → String) :
    ((lang = "" ∨ count ≤ 0 ∨ 1000 < count) →
      (∃ msg, (fetch_meowfacts lang count net now fresh).result
          = .error (.validationError msg))
      ∧ (fetch_meowfacts lang count net now fresh).requestIssued = false)
    ∧ ((lang ≠ "" ∧ 0 < count ∧ count ≤ 1000) →
      ∀ msg, (fetch_meowfacts lang count net now fresh).result
          ≠ .error (.validationError msg)) := by
  constructor
  · intro h
    unfold fetch_meowfacts
    by_cases hl : lang = ""
    · rw [if_pos hl]
      exact ⟨⟨_, rfl⟩, rfl⟩
    · have hc : count ≤ 0 ∨ 1000 < count := by
        rcases h with h | h
        · exact absurd h hl
        · exact h
      rw [if_neg hl, if_pos hc]
      exact ⟨⟨_, rfl⟩, rfl⟩
  · rintro ⟨hl, hc1, hc2⟩ msg
    unfold fetch_meowfacts
    rw [if_neg hl, if_neg (by omega : ¬(count ≤ 0 ∨ 1000 < count))]
    cases net with
    | timeout => simp
    | connectionError => simp
    | response status body =>
        simp only
        by_cases hs : 400 ≤ status
        · rw [if_pos hs]
          simp
        · rw [if_neg hs]
          cases body with
          | none => simp
          | some j => cases j <;> simp

/-- Witness for C3: `count = 0`, `count = 1001` and an empty language
code each fail with no request issued, and a valid call never raises
`ValidationError`. -/
theorem fetch_validation_witness :
    ((fetch_meowfacts "" 200 .timeout sampleDT sampleFresh).requestIssued = false) ∧
    (∃ msg, (fetch_meowfacts "eng" 0 .timeout sampleDT sampleFresh).result
        = .error (.validationError msg)) ∧
    ((fetch_meowfacts "eng" 1001 .timeout sampleDT sampleFresh).requestIssued = false) ∧
    (∀ msg, (fetch_meowfacts "eng" 200 .timeout sampleDT sampleFresh).result
        ≠ .error (.validationError msg)) := by
  refine ⟨((fetch_validation "" 200 .timeout sampleDT sampleFresh).1 (Or.inl rfl)).2,
    ((fetch_validation "eng" 0 .timeout sampleDT sampleFresh).1
      (Or.inr (Or.inl (by decide)))).1,
    ((fetch_validation "eng" 1001 .timeout sampleDT sampleFresh).1
      (Or.inr (Or.inr (by decide)))).2,
    (fetch_validation "eng" 200 .timeout sampleDT sampleFresh).2
      ⟨by decide, by decide, by decide⟩⟩

/-- Counterexample to claim C2 as stated: a successfully parsed response
body that is not a JSON object — here the body parses to the one-element
array `["a"]` — does not yield an empty record list; `data.get` raises
an uncaught `AttributeError` instead. -/
theorem fetch_shape_counterexample :
    (fetch_meowfacts "eng" 200 (.response 200 (some (.arr [.str "a"])))
        sampleDT sampleFresh).result = .error .attributeError := rfl

/-- Claim C2 (amended): for a successfully parsed body that IS a JSON
object, a missing `data` field or a non-list `data` value yields the
empty record list rather than a failure; but for a successfully parsed
body that is NOT a JSON object, fetch-language raises an uncaught
`AttributeError` instead of returning an empty list. -/
theorem fetch_shape_tolerance (lang : String) (count : Int) (status : Nat)
    (now : PyDateTime) (fresh : Nat → String)
    (hlang : lang ≠ "") (hc1 : 0 < count) (hc2 : count ≤ 1000) (hstatus : status < 400) :
    (∀ kvs : PyDict, kvs.lookup "data" = none →
      (fetch_meowfacts lang count (.response status (some (.obj kvs))) now fresh).result
        = .ok [])
    ∧ (∀ (kvs : PyDict) (v : JSON), kvs.lookup "data" = some v → (∀ l, v ≠ .arr l) →
      (fetch_meowfacts lang count (.response status (some (.obj kvs))) now fresh).result
        = .ok [])
    ∧ (∀ j : JSON, (∀ kvs, j ≠ .obj kvs) →
      (fetch_meowfacts lang count (.response status (some j)) now fresh).result
        = .error .attributeError) := by
  have hcount : ¬(count ≤ 0 ∨ 1000 < count) := by omega
  have hst : ¬(400 ≤ status) := by omega
  refine ⟨?_, ?_, ?_⟩
  · intro kvs hk
    simp [fetch_meowfacts, hlang, hcount, hst, hk, buildRecords]
  · intro kvs v hk hv
    cases v with
    | arr l => exact absurd rfl (hv l)
    | null => simp [fetch_meowfacts, hlang, hcount, hst, hk, buildRecords]
    | bool b => simp [fetch_meowfacts, hlang, hcount, hst, hk, buildRecords]
    | num n => simp [fetch_meowfacts, hlang, hcount, hst, hk, buildRecords]
    | str s => simp [fetch_meowfacts, hlang, hcount, hst, hk, buildRecords]
    | obj o => simp [fetch_meowfacts, hlang, hcount, hst, hk, buildRecords]
  · intro j hj
    cases j with
    | obj kvs => exact absurd rfl (hj kvs)
    | null => simp [fetch_meowfacts, hlang, hcount, hst]
    | bool b => simp [fetch_meowfacts, hlang, hcount, hst]
    | num n => simp [fetch_meowfacts, hlang, hcount, hst]
    | str s => simp [fetch_meowfacts, hlang, hcount, hst]
    | arr l => simp [fetch_meowfacts, hlang, hcount, hst]

/-- Witness for the amended C2: a body with no `data` field, a body with
a non-list `data` value, and a non-object body, each at a concrete
valid call. -/
theorem fetch_shape_tolerance_witness :
    (("eng" : String) ≠ "") ∧
    ((fetch_meowfacts "eng" 200 (.response 200 (some (.obj [("foo", .num 1)])))
        sampleDT sampleFresh).result = .ok []) ∧
    ((fetch_meowfacts "eng" 200 (.response 200 (some (.obj [("data", .num 5)])))
        sampleDT sampleFresh).result = .ok []) ∧
    ((fetch_meowfacts "eng" 200 (.response 200 (some (.str "hi")))
        sampleDT sampleFresh).result = .error .attributeError) := by
  have h := fetch_shape_tolerance "eng" 200 200 sampleDT sampleFresh (by decide)
    (by decide) (by decide) (by decide)
  exact ⟨by decide, h.1 [("foo", .num 1)] rfl,
    h.2.1 [("data", .num 5)] (.num 5) rfl (fun _ hh => nomatch hh),
    h.2.2 (.str "hi") (fun _ hh => nomatch hh)⟩

/-- Claim C4: when fetch-language fails for every configured language,
the run raises `NoDataError` on an empty dataset and attempts no write;
and in general a zero-record dataset is never persisted — a successful
write outcome forces a nonempty dataset. -/
theorem run_all_fail (env : IngestEnv)
    (h : ∀ lang ∈ SUPPORTED_LANGUAGES, isErr (fetchFor env lang).result = true) :
    (main_run env).outcome
        = .error (.noDataError "No facts were successfully fetched from any language")
    ∧ (main_run env).dataset = []
    ∧ (∀ env2 ev, (main_run env2).outcome = .ok ev → (main_run env2).dataset ≠ []) := by
  have hlr : ∀ lang ∈ SUPPORTED_LANGUAGES, langRecords env lang = [] := by
    intro lang hl
    have hiserr := h lang hl
    unfold langRecords
    cases hres : (fetchFor env lang).result with
    | ok facts =>
        rw [hres] at hiserr
        simp [isErr] at hiserr
    | error e => simp
  have hflat : (SUPPORTED_LANGUAGES.map (langRecords env)).flatten = [] := by
    rw [List.flatten_eq_nil_iff]
    intro l hl
    rcases List.mem_map.mp hl with ⟨lang, hlang, rfl⟩
    exact hlr lang hlang
  refine ⟨?_, ?_, ?_⟩
  · rw [main_run_outcome, hflat]
    rfl
  · rw [main_run_dataset]
    exact hflat
  · intro env2 ev hok hempty
    rw [main_run_outcome] at hok
    rw [main_run_dataset] at hempty
    rw [hempty] at hok
    exact absurd hok (by simp)

/-- Environment in which every language's request times out. -/
def sampleEnvAllFail : IngestEnv :=
  { net := fun _ => .timeout, clock := fun _ => sampleDT, fresh := fun _ => sampleFresh }

/-- Witness for C4: with every request timing out, the run ends in
`NoDataError` with an empty dataset. -/
theorem run_all_fail_witness :
    (∀ lang ∈ SUPPORTED_LANGUAGES, isErr (fetchFor sampleEnvAllFail lang).result = true) ∧
    (main_run sampleEnvAllFail).outcome
        = .error (.noDataError "No facts were successfully fetched from any language") ∧
    (main_run sampleEnvAllFail).dataset = [] := by
  have h : ∀ lang ∈ SUPPORTED_LANGUAGES, isErr (fetchFor sampleEnvAllFail lang).result
      = true := by decide
  exact ⟨h, (run_all_fail sampleEnvAllFail h).1, (run_all_fail sampleEnvAllFail h).2.1⟩

/-- Claim C5 (amended): inside run-ingestion's per-language loop EVERY
exception fetch-language raises is caught — the four network/parsing
kinds by the `(RequestException, ValueError)` handler and anything else
by the `except Exception` catch-all — the failing language is recorded
in the failed-languages list and the loop continues; no per-language
exception propagates: the only error the run itself can raise is
`NoDataError`. -/
theorem loop_isolation (env : IngestEnv) :
    (main_run env).failed
        = SUPPORTED_LANGUAGES.filter (fun l => isErr (fetchFor env l).result)
    ∧ (∀ e, (main_run env).outcome = .error e →
        e = .noDataError "No facts were successfully fetched from any language") := by
  refine ⟨main_run_failed env, ?_⟩
  intro e he
  rw [main_run_outcome] at he
  split at he
  · exact (Except.error.inj he).symm
  · exact absurd he (by simp)

/-- Environment in which `"eng"` succeeds with one fact and every other
language's body parses to a non-dict, so its fetch raises the uncaught
`AttributeError`. -/
def sampleEnvMixed : IngestEnv :=
  { net := fun lang =>
      if lang = "eng" then .response 200 (some (.obj [("data", .arr [.str "meow"])]))
      else .response 200 (some (.arr [])),
    clock := fun _ => sampleDT,
    fresh := fun _ => sampleFresh }

/-- Counterexample to claim C5 as stated: `"ces"`'s fetch raises
`AttributeError` — not one of the four network/parsing kinds — yet the
loop records it as failed and continues, and the run completes with a
successful write instead of terminating on that exception. -/
theorem loop_isolation_counterexample :
    (fetchFor sampleEnvMixed "ces").result = .error .attributeError
    ∧ (main_run sampleEnvMixed).failed
        = ["ces", "ger", "ben", "esp", "rus", "por", "fil", "ukr", "urd", "ita", "zho", "kor"]
    ∧ isErr (main_run sampleEnvMixed).outcome = false := by
  refine ⟨rfl, rfl, rfl⟩

/-- A concrete ambient environment for export runs. -/
def sampleRunEnv : RunEnv := { utcnow := sampleDT, uuidStream := sampleFresh }

/-- Input array whose second record lacks the `fact` field. -/
def recsMissingField : List PyDict :=
  [[("event_id", .str "e1"), ("processing_timestamp", .str "t1"),
    ("language", .str "eng"), ("fact", .str "meow")],
   [("event_id", .str "e2"), ("processing_timestamp", .str "t1"),
    ("language", .str "eng")]]

/-- Counterexample to claim C6 as stated: on an input array whose second
record lacks the `fact` field, build-table does not fail with
`MalformedResponse` — it silently produces output: a two-row table whose
missing cell is rendered empty. -/
theorem build_table_counterexample :
    (build_table sampleRunEnv recsMissingField).row_count = 2
    ∧ (build_table sampleRunEnv recsMissingField).csv_text
        = "event_id,processing_timestamp,language,fact\ne1,t1,eng,meow\ne2,t1,eng,\n" := by
  refine ⟨rfl, rfl⟩

/-- Claim C6 (amended): build-table performs no record-shape validation —
on every array of record objects it succeeds with one row per record, a
column's cells align with the records in order, and a record lacking a
field of some column gets an empty cell there. -/
theorem build_table_no_validation (env : RunEnv) (records : List PyDict) :
    (build_table env records).row_count = records.length
    ∧ (∀ k, k ∈ unionKeys records →
        tableColumn (build_table env records).df k = records.map (fun r => cellOf r k))
    ∧ (∀ r k, r.lookup k = none → cellOf r k = "") := by
  refine ⟨?_, ?_, ?_⟩
  · simp [build_table, pdDataFrame]
  · intro k hk
    exact tableColumn_pdDataFrame records k hk
  · intro r k hk
    simp [cellOf, hk]

/-- Witness for the amended C6: a record list whose second record is the
empty dict still yields two rows, with an empty `fact` cell for it. -/
theorem build_table_no_validation_witness :
    (build_table sampleRunEnv [[("fact", JSON.str "meow")], []]).row_count = 2
    ∧ tableColumn (build_table sampleRunEnv [[("fact", JSON.str "meow")], []]).df "fact"
        = ["meow", ""] := by
  have h := build_table_no_validation sampleRunEnv [[("fact", JSON.str "meow")], []]
  refine ⟨h.1, ?_⟩
  rw [h.2.1 "fact" (by decide)]
  rfl

theorem cellOf_str (r : PyDict) (k s : String) (h : r.lookup k = some (.str s)) :
    cellOf r k = s := by
  simp [cellOf, h, pyStr]

/-- Claim C7: on an input array of N record objects with string-valued
`fact` fields, build-table's output table has columns equal to the union
of field names in first-appearance order, exactly N data rows in file
order under the single header row with no index column — so the CSV
text, when no rendered cell embeds a line break, consists of exactly N+1
newline-terminated lines — and the set of `fact` values appearing in the
tabular output equals the set of `fact` values in the JSON input. -/
theorem build_table_projection (env : RunEnv) (records : List PyDict)
    (hfact : ∀ r ∈ records, ∃ s, r.lookup "fact" = some (JSON.str s)) :
    (build_table env records).df.header = unionKeys records
    ∧ (build_table env records).df.rows.length = records.length
    ∧ (build_table env records).df.rows
        = records.map (fun r => (unionKeys records).map (cellOf r))
    ∧ ((∀ s ∈ unionKeys records, '\n' ∉ s.data) →
        (∀ row ∈ (build_table env records).df.rows, ∀ c ∈ row, '\n' ∉ c.data) →
        ((build_table env records).csv_text).data.count '\n' = records.length + 1)
    ∧ tableColumn (build_table env records).df "fact"
        = records.map (fun r => cellOf r "fact")
    ∧ (∀ s, s ∈ tableColumn (build_table env records).df "fact" ↔
        ∃ r ∈ records, r.lookup "fact" = some (JSON.str s)) := by
  have hcol : tableColumn (build_table env records).df "fact"
      = records.map (fun r => cellOf r "fact") := by
    cases records with
    | nil => rfl
    | cons r rest =>
        apply tableColumn_pdDataFrame
        rw [mem_unionKeys]
        obtain ⟨s, hs⟩ := hfact r (List.mem_cons_self r rest)
        exact ⟨r, List.mem_cons_self r rest, lookup_some_mem_keys r _ _ hs⟩
  refine ⟨rfl, by simp [build_table, pdDataFrame], rfl, ?_, hcol, ?_⟩
  · intro hhead hcells
    have h1 := to_csv_newline_count (pdDataFrame records) hhead hcells
    have h2 : (pdDataFrame records).rows.length = records.length := by
      simp [pdDataFrame]
    rw [h2] at h1
    exact h1
  · intro s
    rw [hcol]
    constructor
    · intro hmem
      rcases List.mem_map.mp hmem with ⟨r, hr, hcell⟩
      obtain ⟨s2, hs2⟩ := hfact r hr
      rw [cellOf_str r "fact" s2 hs2] at hcell
      subst hcell
      exact ⟨r, hr, hs2⟩
    · rintro ⟨r, hr, hs⟩
      exact List.mem_map.mpr ⟨r, hr, cellOf_str r "fact" s hs⟩

/-- Input array of two complete records used in the C7 witness. -/
def recsSample : List PyDict :=
  [[("event_id", .str "e1"), ("processing_timestamp", .str "t1"),
    ("language", .str "eng"), ("fact", .str "meow")],
   [("event_id", .str "e2"), ("processing_timestamp", .str "t1"),
    ("language", .str "ces"), ("fact", .str "mnau")]]

/-- Witness for C7 on a concrete two-record input: two data rows, three
output lines, and a fact column matching the input facts. -/
theorem build_table_projection_witness :
    (∀ r ∈ recsSample, ∃ s, r.lookup "fact" = some (JSON.str s))
    ∧ (build_table sampleRunEnv recsSample).df.rows.length = 2
    ∧ ((build_table sampleRunEnv recsSample).csv_text).data.count '\n' = 2 + 1
    ∧ (∀ s, s ∈ tableColumn (build_table sampleRunEnv recsSample).df "fact" ↔
        ∃ r ∈ recsSample, r.lookup "fact" = some (JSON.str s)) := by
  have hfact : ∀ r ∈ recsSample, ∃ s, r.lookup "fact" = some (JSON.str s) := by
    intro r hr
    rcases List.mem_cons.mp hr with h | h
    · exact ⟨"meow", by rw [h]; rfl⟩
    · rcases List.mem_cons.mp h with h2 | h2
      · exact ⟨"mnau", by rw [h2]; rfl⟩
      · exact absurd h2 (by simp)
  have h := build_table_projection sampleRunEnv recsSample hfact
  exact ⟨hfact, h.2.1, h.2.2.2.1 (by decide) (by decide), h.2.2.2.2.2⟩

/-- Lookup of a field in a serialized JSON object (`none` on
non-objects), used to state that persisted records carry their
fields. -/
def jsonField (j : JSON) (k : String) : Option JSON :=
  match j with
  | .obj kvs => kvs.lookup k
  | _ => none

/-- Claim C8: every record in the dataset `main` accumulates and persists
carries all four fields as (non-null) string values in its serialized
object; its `processing_timestamp` — given that each clock reading is a
valid datetime, as `utcnow` guarantees — is an ISO-8601 UTC instant with
a trailing `Z`; its language is one of the configured languages; and the
dataset order is the fixed language-iteration order: the concatenation
of the per-language record lists in `SUPPORTED_LANGUAGES` order. -/
theorem dataset_invariants (env : IngestEnv)
    (hclock : ∀ lang, ValidDT (env.clock lang)) :
    (main_run env).dataset = (SUPPORTED_LANGUAGES.map (langRecords env)).flatten
    ∧ ∀ r ∈ (main_run env).dataset,
        (∀ k ∈ ["event_id", "processing_timestamp", "language", "fact"],
          ∃ s, jsonField (recordToJson r) k = some (.str s))
        ∧ isISO8601Z r.processing_timestamp = true
        ∧ r.language ∈ SUPPORTED_LANGUAGES := by
  refine ⟨main_run_dataset env, ?_⟩
  intro r hr
  rw [main_run_dataset env] at hr
  rcases List.mem_flatten.mp hr with ⟨l, hl, hrl⟩
  rcases List.mem_map.mp hl with ⟨lang, hlang, rfl⟩
  have hfetch : r.language = lang ∧ r.processing_timestamp
      = get_timestamp (env.clock lang) := by
    unfold langRecords at hrl
    cases hres : (fetchFor env lang).result with
    | ok facts =>
        rw [hres] at hrl
        exact fetch_ok_inv lang _ _ _ _ facts hres r hrl
    | error e =>
        rw [hres] at hrl
        simp at hrl
  refine ⟨?_, ?_, ?_⟩
  · intro k hk
    rcases List.mem_cons.mp hk with h | h
    · subst h
      exact ⟨r.event_id, rfl⟩
    rcases List.mem_cons.mp h with h | h
    · subst h
      exact ⟨r.processing_timestamp, rfl⟩
    rcases List.mem_cons.mp h with h | h
    · subst h
      exact ⟨r.language, rfl⟩
    rcases List.mem_cons.mp h with h | h
    · subst h
      exact ⟨r.fact, rfl⟩
    · exact absurd h (by simp)
  · rw [hfetch.2]
    exact get_timestamp_isISO8601Z (env.clock lang)
  · rw [hfetch.1]
    exact hlang

/-- Witness for C8: the mixed environment's run, whose dataset holds the
one record fetched for `"eng"`. -/
theorem dataset_invariants_witness :
    (∀ lang, ValidDT (sampleEnvMixed.clock lang))
    ∧ ((main_run sampleEnvMixed).dataset
        = (SUPPORTED_LANGUAGES.map (langRecords sampleEnvMixed)).flatten
      ∧ ∀ r ∈ (main_run sampleEnvMixed).dataset,
          (∀ k ∈ ["event_id", "processing_timestamp", "language", "fact"],
            ∃ s, jsonField (recordToJson r) k = some (.str s))
          ∧ isISO8601Z r.processing_timestamp = true
          ∧ r.language ∈ SUPPORTED_LANGUAGES) := by
  have hc : ∀ lang, ValidDT (sampleEnvMixed.clock lang) := by
    intro lang
    show ValidDT sampleDT
    decide
  exact ⟨hc, dataset_invariants sampleEnvMixed hc⟩

/-- Claim C9: build-table is a deterministic function of the parsed
input alone — two runs in different ambient environments (different
clock readings and entropy streams) produce identical output, in
particular byte-identical CSV text; the source reads no ambient state,
so nothing besides the input file contents can influence the delimited
output. -/
theorem build_table_deterministic (e1 e2 : RunEnv) (data : List PyDict) :
    build_table e1 data = build_table e2 data
    ∧ (build_table e1 data).csv_text = (build_table e2 data).csv_text :=
  ⟨rfl, rfl⟩

/-- Claim C10: `write_output_file` accepts an empty record list without
raising — it only flags the warning and writes the JSON text of an empty
array — so the guarantee that a zero-record dataset is never persisted
rests solely on `main`'s pre-write emptiness check, which turns an empty
accumulated dataset into `NoDataError` before any write. -/
theorem write_output_accepts_empty (p : String) :
    write_output_file [] p = ⟨true, p, "[]"⟩
    ∧ (∀ env, (main_run env).dataset = [] →
        (main_run env).outcome
          = .error (.noDataError "No facts were successfully fetched from any language")) := by
  constructor
  · rfl
  · intro env hds
    rw [main_run_dataset] at hds
    rw [main_run_outcome, hds]
    rfl

/-- Witness for C10: the empty write event at the configured output
path, and the all-fail run ending in `NoDataError` before any write. -/
theorem write_output_accepts_empty_witness :
    write_output_file [] OUTPUT_FILE = ⟨true, OUTPUT_FILE, "[]"⟩
    ∧ (main_run sampleEnvAllFail).outcome
        = .error (.noDataError "No facts were successfully fetched from any language") := by
  have h := write_output_accepts_empty OUTPUT_FILE
  exact ⟨h.1, h.2 sampleEnvAllFail (by decide)⟩

/-- Witness for the amended C5: in the all-timeout run every language is
recorded as failed and the only error raised is `NoDataError`. -/
theorem loop_isolation_witness :
    (main_run sampleEnvAllFail).failed = SUPPORTED_LANGUAGES
    ∧ ∀ e, (main_run sampleEnvAllFail).outcome = .error e →
        e = .noDataError "No facts were successfully fetched from any language" := by
  have h := loop_isolation sampleEnvAllFail
  refine ⟨?_, h.2⟩
  rw [h.1]
  decide
